import Mathlib

/-!
Shallow embedding of `backend.py` (CMNFA HTTP facade over the `cmc` CLI).

The Python source is a Flask app; each endpoint validates request fields,
builds a command line for the external `cmc` binary, runs it, parses its
stdout as JSON when possible, and normalizes the result.  We model Python
strings as Lean `String` (sequences of unicode scalar values), bytes as
`List Nat` (each < 256), the filesystem and the subprocess as an explicit
`World` record, and each endpoint handler as a pure function.
-/

namespace CMNFA

/-! ### Python string helpers -/

/-- ASCII whitespace as stripped by Python `str.strip()` (space, tab,
newline, carriage return, vertical tab, form feed; the exotic unicode
whitespace Python also strips is irrelevant to this code base). -/
def isPySpace (c : Char) : Bool :=
  c = ' ' || c = '\t' || c = '\n' || c = '\r' || c = '\x0b' || c = '\x0c'

/-- Python `s.strip()`: drop leading and trailing whitespace. -/
def pyStrip (s : String) : String :=
  String.mk (((s.data.dropWhile isPySpace).reverse.dropWhile isPySpace).reverse)

/-- `needle` occurs at the start of `hay` (over char lists). -/
def isPrefixChars : List Char → List Char → Bool
  | [], _ => true
  | _ :: _, [] => false
  | c :: cs, d :: ds => c == d && isPrefixChars cs ds

/-- `needle` occurs somewhere inside `hay` (over char lists). -/
def hasSubChars : List Char → List Char → Bool
  | needle, [] => isPrefixChars needle []
  | needle, c :: t => isPrefixChars needle (c :: t) || hasSubChars needle t

/-- `strContains hay needle = true` iff `needle` is a substring of `hay`.
Used to state that an error message names a field or artifact. -/
def strContains (hay needle : String) : Bool :=
  hasSubChars needle.data hay.data

/-- Python `os.path.basename` (POSIX): the part after the last `/`. -/
def pyBasename (p : String) : String :=
  match (p.data.reverse.takeWhile (fun c => !(c == '/'))).reverse with
  | cs => String.mk cs

/-- Python `os.path.join a b` (POSIX, two arguments): `b` if absolute,
otherwise `a`, a `/` separator (unless `a` already ends in one), then `b`. -/
def pyPathJoin (a b : String) : String :=
  if b.data.take 1 = ['/'] then b
  else if a.data = [] then b
  else if a.data.getLast? = some '/' then a ++ b
  else a ++ "/" ++ b

/-! ### Base64 (Python `base64.b64encode` / `b64decode(validate=True)`) -/

/-- Index of a character in the standard base64 alphabet, if any. -/
def b64CharVal (c : Char) : Option Nat :=
  if 'A' ≤ c ∧ c ≤ 'Z' then some (c.toNat - 65)
  else if 'a' ≤ c ∧ c ≤ 'z' then some (c.toNat - 97 + 26)
  else if '0' ≤ c ∧ c ≤ '9' then some (c.toNat - 48 + 52)
  else if c = '+' then some 62
  else if c = '/' then some 63
  else none

/-- Character of the standard base64 alphabet at index `n` (n < 64). -/
def b64Char (n : Nat) : Char :=
  if n < 26 then Char.ofNat (65 + n)
  else if n < 52 then Char.ofNat (97 + (n - 26))
  else if n < 62 then Char.ofNat (48 + (n - 52))
  else if n = 62 then '+' else '/'

/-- Standard base64 encoding of a byte list, three bytes per group,
padded with `=`. -/
def b64EncodeGroups : List Nat → List Char
  | [] => []
  | [b1] => [b64Char (b1 / 4), b64Char (b1 % 4 * 16), '=', '=']
  | [b1, b2] =>
      [b64Char (b1 / 4), b64Char (b1 % 4 * 16 + b2 / 16), b64Char (b2 % 16 * 4), '=']
  | b1 :: b2 :: b3 :: rest =>
      b64Char (b1 / 4) :: b64Char (b1 % 4 * 16 + b2 / 16) ::
        b64Char (b2 % 16 * 4 + b3 / 64) :: b64Char (b3 % 64) :: b64EncodeGroups rest

/-- Python `base64.b64encode(bs).decode("utf-8")`. -/
def b64encode (bs : List Nat) : String :=
  String.mk (b64EncodeGroups bs)

/-- Decode a list of 6-bit values (pad already stripped); a trailing group
of 2 or 3 values yields 1 or 2 bytes, a trailing group of 1 is invalid. -/
def b64DecodeGroups : List Nat → Option (List Nat)
  | [] => some []
  | [_] => none
  | [v1, v2] => some [v1 * 4 + v2 / 16]
  | [v1, v2, v3] => some [v1 * 4 + v2 / 16, v2 % 16 * 16 + v3 / 4]
  | v1 :: v2 :: v3 :: v4 :: rest =>
      (b64DecodeGroups rest).map
        (fun bs => (v1 * 4 + v2 / 16) :: (v2 % 16 * 16 + v3 / 4) :: (v3 % 4 * 64 + v4) :: bs)

/-- Python `base64.b64decode(s, validate=True)`: the whole string must
match `[A-Za-z0-9+/]*={0,2}` and have length a multiple of four
(Python 3.11 semantics, where `validate=True` also selects the strict
decoder); returns the decoded bytes. -/
def pyB64DecodeStrict (s : String) : Option (List Nat) :=
  let cs := s.data
  let dataPart := cs.takeWhile (fun c => !(c == '='))
  let padPart := cs.drop dataPart.length
  if dataPart.all (fun c => (b64CharVal c).isSome) &&
     padPart.all (fun c => c == '=') &&
     decide (padPart.length ≤ 2) &&
     (cs.length % 4 == 0) then
    b64DecodeGroups (dataPart.filterMap b64CharVal)
  else none

/-! ### UTF-8 -/

/-- UTF-8 encoding of one unicode scalar value (Python `str.encode("utf-8")`
acts per character; Lean `Char` excludes surrogates, as Python strings from
JSON-free sources do here). -/
def utf8EncodeChar (c : Char) : List Nat :=
  let n := c.toNat
  if n < 0x80 then [n]
  else if n < 0x800 then [0xC0 + n / 64, 0x80 + n % 64]
  else if n < 0x10000 then [0xE0 + n / 4096, 0x80 + n / 64 % 64, 0x80 + n % 64]
  else [0xF0 + n / 262144, 0x80 + n / 4096 % 64, 0x80 + n / 64 % 64, 0x80 + n % 64]

/-- Python `s.encode("utf-8")`. -/
def utf8Encode (s : String) : List Nat :=
  s.data.flatMap utf8EncodeChar

/-- `b` is a UTF-8 continuation byte. -/
def isCont (b : Nat) : Bool :=
  0x80 ≤ b && b < 0xC0

/-- Python `bs.decode("utf-8")` (strict): rejects overlong encodings,
surrogates, values above U+10FFFF and truncated sequences. -/
def utf8Decode : List Nat → Option (List Char)
  | [] => some []
  | b1 :: rest =>
    if b1 < 0x80 then
      (utf8Decode rest).map (fun cs => Char.ofNat b1 :: cs)
    else if b1 < 0xC2 then none
    else if b1 < 0xE0 then
      match rest with
      | b2 :: rest2 =>
        if isCont b2 then
          (utf8Decode rest2).map (fun cs => Char.ofNat ((b1 - 0xC0) * 64 + (b2 - 0x80)) :: cs)
        else none
      | [] => none
    else if b1 < 0xF0 then
      match rest with
      | b2 :: b3 :: rest2 =>
        if (if b1 = 0xE0 then 0xA0 else 0x80) ≤ b2 &&
           b2 < (if b1 = 0xED then 0xA0 else 0xC0) && isCont b3 then
          (utf8Decode rest2).map
            (fun cs => Char.ofNat ((b1 - 0xE0) * 4096 + (b2 - 0x80) * 64 + (b3 - 0x80)) :: cs)
        else none
      | _ => none
    else if b1 < 0xF5 then
      match rest with
      | b2 :: b3 :: b4 :: rest2 =>
        if (if b1 = 0xF0 then 0x90 else 0x80) ≤ b2 &&
           b2 < (if b1 = 0xF4 then 0x90 else 0xC0) && isCont b3 && isCont b4 then
          (utf8Decode rest2).map
            (fun cs => Char.ofNat
              ((b1 - 0xF0) * 262144 + (b2 - 0x80) * 4096 + (b3 - 0x80) * 64 + (b4 - 0x80)) :: cs)
        else none
      | _ => none
    else none

/-! ### `_is_base64` and `_decode_result` (backend.py lines 30-46) -/

/-- backend.py `_is_base64`: non-empty, all characters in the base64
alphabet plus `=`, `\n`, `\r`, and `base64.b64decode(s, validate=True)`
succeeds. -/
def _is_base64 (s : String) : Bool :=
  !s.data.isEmpty &&
  s.data.all (fun c => (b64CharVal c).isSome || c == '=' || c == '\n' || c == '\r') &&
  (pyB64DecodeStrict s).isSome

/-- backend.py `_decode_result`: when `_is_base64` holds, base64-decode and
UTF-8-decode; any exception there (only the UTF-8 step can fail, since
`_is_base64` already ran the strict decode, and on such inputs the
non-strict decode at line 43 returns the same bytes) falls back to the
original string; otherwise the string is returned unchanged. -/
def _decode_result (s : String) : String :=
  if _is_base64 s then
    match (pyB64DecodeStrict s).bind utf8Decode with
    | some cs => String.mk cs
    | none => s
  else s

/-! ### JSON serialization (Python `json.dumps` on string-to-string dicts) -/

/-- Lowercase hex digit, as Python's `\uXXXX` escapes use. -/
def hexDigitChar (n : Nat) : Char :=
  if n < 10 then Char.ofNat (48 + n) else Char.ofNat (97 + (n - 10))

/-- A `\uXXXX` escape for one 16-bit value. -/
def uEscape (n : Nat) : List Char :=
  ['\\', 'u', hexDigitChar (n / 4096 % 16), hexDigitChar (n / 256 % 16),
   hexDigitChar (n / 16 % 16), hexDigitChar (n % 16)]

/-- `json.dumps` escaping of one character (default `ensure_ascii=True`):
quote, backslash and the short control escapes, `\uXXXX` for other control
and non-ASCII characters, surrogate pairs above U+FFFF. -/
def jsonEscapeChar (c : Char) : List Char :=
  let n := c.toNat
  if c = '"' then ['\\', '"']
  else if c = '\\' then ['\\', '\\']
  else if c = '\n' then ['\\', 'n']
  else if c = '\r' then ['\\', 'r']
  else if c = '\t' then ['\\', 't']
  else if n = 8 then ['\\', 'b']
  else if n = 12 then ['\\', 'f']
  else if n < 0x20 then uEscape n
  else if n < 0x80 then [c]
  else if n < 0x10000 then uEscape n
  else uEscape (0xD800 + (n - 0x10000) / 1024) ++ uEscape (0xDC00 + (n - 0x10000) % 1024)

/-- A JSON string literal for `s`. -/
def jsonQuote (s : String) : String :=
  "\"" ++ String.mk (s.data.flatMap jsonEscapeChar) ++ "\""

/-- `json.dumps(d, separators=(',', ':'))` on a string-to-string mapping,
keys in insertion order — the compact form `exec_cmc` uses for `--params`. -/
def jsonDumpsCompact (kvs : List (String × String)) : String :=
  "\x7b" ++ String.intercalate "," (kvs.map (fun kv => jsonQuote kv.1 ++ ":" ++ jsonQuote kv.2)) ++ "\x7d"

/-- `json.dumps(d)` with the default separators `(', ', ': ')` on a
string-to-string mapping — used by `create_or_set_category`. -/
def jsonDumpsDefault (kvs : List (String × String)) : String :=
  "\x7b" ++ String.intercalate ", " (kvs.map (fun kv => jsonQuote kv.1 ++ ": " ++ jsonQuote kv.2)) ++ "\x7d"

/-! ### Parsed JSON values and `json.loads` -/

/-- A Python value as produced by `json.loads`, or carried through the
handlers: the passthrough branch of `exec_cmc` stores raw stdout as `str`.
Floats keep their source token (handlers never compute with numbers). -/
inductive Py where
  | null
  | boolVal (b : Bool)
  | intVal (n : Int)
  | floatLit (tok : String)
  | str (s : String)
  | arr (elems : List Py)
  | obj (kvs : List (String × Py))

/-- JSON insignificant whitespace. -/
def jsonWsChar (c : Char) : Bool :=
  c = ' ' || c = '\t' || c = '\n' || c = '\r'

/-- Hex digit value, any case. -/
def hexVal (c : Char) : Option Nat :=
  if '0' ≤ c ∧ c ≤ '9' then some (c.toNat - 48)
  else if 'a' ≤ c ∧ c ≤ 'f' then some (c.toNat - 87)
  else if 'A' ≤ c ∧ c ≤ 'F' then some (c.toNat - 55)
  else none

/-- Decimal digit value. -/
def digitVal (c : Char) : Option Nat :=
  if '0' ≤ c ∧ c ≤ '9' then some (c.toNat - 48) else none

/-- Split off a maximal run of decimal digits. -/
def takeDigits : List Char → List Char × List Char
  | [] => ([], [])
  | c :: cs =>
    if (digitVal c).isSome then
      match takeDigits cs with
      | (ds, rest) => (c :: ds, rest)
    else ([], c :: cs)

/-- Numeric value of a digit run. -/
def digitsToNat (ds : List Char) : Nat :=
  ds.foldl (fun acc c => acc * 10 + (c.toNat - 48)) 0

/-- Parse the body of a JSON string after the opening quote, returning the
characters and the remainder after the closing quote.  Strict mode: raw
control characters are rejected; `\uXXXX` escapes are combined into
surrogate pairs (lone surrogate escapes, which CPython would keep as
unpaired surrogate code points unrepresentable in a Lean `Char`, are
rejected — no value of this program's domain contains them). -/
def parseJStr : List Char → Option (List Char × List Char)
  | [] => none
  | c :: cs =>
    if c = '"' then some ([], cs)
    else if c = '\\' then
      match cs with
      | 'u' :: h1 :: h2 :: h3 :: h4 :: cs2 =>
        match hexVal h1, hexVal h2, hexVal h3, hexVal h4 with
        | some a, some b, some d, some e =>
          let n := a * 4096 + b * 256 + d * 16 + e
          if 0xD800 ≤ n ∧ n < 0xDC00 then
            match cs2 with
            | '\\' :: 'u' :: g1 :: g2 :: g3 :: g4 :: cs3 =>
              match hexVal g1, hexVal g2, hexVal g3, hexVal g4 with
              | some a2, some b2, some d2, some e2 =>
                let m := a2 * 4096 + b2 * 256 + d2 * 16 + e2
                if 0xDC00 ≤ m ∧ m < 0xE000 then
                  (parseJStr cs3).map (fun r =>
                    (Char.ofNat (0x10000 + (n - 0xD800) * 1024 + (m - 0xDC00)) :: r.1, r.2))
                else none
              | _, _, _, _ => none
            | _ => none
          else if 0xDC00 ≤ n ∧ n < 0xE000 then none
          else (parseJStr cs2).map (fun r => (Char.ofNat n :: r.1, r.2))
        | _, _, _, _ => none
      | e :: cs2 =>
        let esc : Option Char :=
          if e = '"' then some '"'
          else if e = '\\' then some '\\'
          else if e = '/' then some '/'
          else if e = 'b' then some '\x08'
          else if e = 'f' then some '\x0c'
          else if e = 'n' then some '\n'
          else if e = 'r' then some '\r'
          else if e = 't' then some '\t'
          else none
        match esc with
        | some ch => (parseJStr cs2).map (fun r => (ch :: r.1, r.2))
        | none => none
      | [] => none
    else if c.toNat < 0x20 then none
    else (parseJStr cs).map (fun r => (c :: r.1, r.2))

/-- Finish a number after its integer digits: optional fraction and
exponent per the grammar `(\.\d+)?([eE][-+]?\d+)?`.  A pure integer token
becomes `intVal`; anything with a fraction or exponent keeps its token. -/
def finishNumber (neg : Bool) (intDigits : List Char) (cs : List Char) :
    Option (Py × List Char) :=
  let fr : Option (List Char × List Char) :=
    match cs with
    | '.' :: t =>
      match takeDigits t with
      | ([], _) => none
      | (ds, rest) => some ('.' :: ds, rest)
    | _ => some ([], cs)
  match fr with
  | none => none
  | some (fracCs, cs2) =>
    let ex : Option (List Char × List Char) :=
      match cs2 with
      | e :: t =>
        if e = 'e' ∨ e = 'E' then
          match t with
          | s :: t2 =>
            if s = '+' ∨ s = '-' then
              match takeDigits t2 with
              | ([], _) => none
              | (ds, rest) => some (e :: s :: ds, rest)
            else
              match takeDigits t with
              | ([], _) => none
              | (ds, rest) => some (e :: ds, rest)
          | [] => none
        else some ([], cs2)
      | [] => some ([], cs2)
    match ex with
    | none => none
    | some (expCs, cs3) =>
      if fracCs = [] ∧ expCs = [] then
        some (.intVal (if neg then -(Int.ofNat (digitsToNat intDigits))
                       else Int.ofNat (digitsToNat intDigits)), cs3)
      else
        some (.floatLit (String.mk ((if neg then ['-'] else []) ++ intDigits ++ fracCs ++ expCs)), cs3)

/-- Parse a JSON number token `-?(0|[1-9]\d*)(\.\d+)?([eE][-+]?\d+)?`. -/
def parseNumber (cs : List Char) : Option (Py × List Char) :=
  match cs with
  | '-' :: cs1 =>
    match cs1 with
    | c :: t =>
      if c = '0' then finishNumber true ['0'] t
      else
        match digitVal c with
        | some _ =>
          match takeDigits (c :: t) with
          | (ds, rest) => finishNumber true ds rest
        | none => none
    | [] => none
  | c :: t =>
    if c = '0' then finishNumber false ['0'] t
    else
      match digitVal c with
      | some _ =>
        match takeDigits (c :: t) with
        | (ds, rest) => finishNumber false ds rest
      | none => none
  | [] => none

/-- Insert into an object under Python dict semantics: a repeated key keeps
its first position but takes the later value. -/
def objInsert : List (String × Py) → String → Py → List (String × Py)
  | [], k, v => [(k, v)]
  | (k0, v0) :: rest, k, v =>
    if k0 = k then (k0, v) :: rest
    else (k0, v0) :: objInsert rest k v

mutual

/-- Parse one JSON value (fuel-indexed recursion; `jsonLoads` supplies
ample fuel).  Follows CPython's `json` scanner: the default constants
`NaN`, `Infinity` and `-Infinity` are accepted. -/
def parseValue : Nat → List Char → Option (Py × List Char)
  | 0, _ => none
  | Nat.succ fuel, cs0 =>
    match cs0.dropWhile jsonWsChar with
    | [] => none
    | c :: rest =>
      if c = '"' then
        (parseJStr rest).map (fun r => (.str (String.mk r.1), r.2))
      else if c = Char.ofNat 123 then
        match rest.dropWhile jsonWsChar with
        | d :: rest2 =>
          if d = Char.ofNat 125 then some (.obj [], rest2)
          else parseMembers fuel (d :: rest2) []
        | [] => none
      else if c = '[' then
        match rest.dropWhile jsonWsChar with
        | ']' :: rest2 => some (.arr [], rest2)
        | cs2 => parseElems fuel cs2 []
      else if c = 't' then
        match rest with
        | 'r' :: 'u' :: 'e' :: t => some (.boolVal true, t)
        | _ => none
      else if c = 'f' then
        match rest with
        | 'a' :: 'l' :: 's' :: 'e' :: t => some (.boolVal false, t)
        | _ => none
      else if c = 'n' then
        match rest with
        | 'u' :: 'l' :: 'l' :: t => some (.null, t)
        | _ => none
      else if c = 'N' then
        match rest with
        | 'a' :: 'N' :: t => some (.floatLit "NaN", t)
        | _ => none
      else if c = 'I' then
        match rest with
        | 'n' :: 'f' :: 'i' :: 'n' :: 'i' :: 't' :: 'y' :: t =>
          some (.floatLit "Infinity", t)
        | _ => none
      else if c = '-' ∧ isPrefixChars "Infinity".data rest then
        some (.floatLit "-Infinity", rest.drop 8)
      else if c = '-' ∨ (digitVal c).isSome then
        parseNumber (c :: rest)
      else none

/-- Parse object members from the first key on (the leading character is
already known not to close the object). -/
def parseMembers : Nat → List Char → List (String × Py) → Option (Py × List Char)
  | 0, _, _ => none
  | Nat.succ fuel, cs, acc =>
    match cs with
    | '"' :: rest =>
      match parseJStr rest with
      | none => none
      | some (keyCs, rest2) =>
        match rest2.dropWhile jsonWsChar with
        | ':' :: rest3 =>
          match parseValue fuel rest3 with
          | none => none
          | some (v, rest4) =>
            match rest4.dropWhile jsonWsChar with
            | ',' :: rest5 =>
              parseMembers fuel (rest5.dropWhile jsonWsChar) (objInsert acc (String.mk keyCs) v)
            | d :: rest5 =>
              if d = Char.ofNat 125 then some (.obj (objInsert acc (String.mk keyCs) v), rest5)
              else none
            | [] => none
        | _ => none
    | _ => none

/-- Parse array elements from the first element on. -/
def parseElems : Nat → List Char → List Py → Option (Py × List Char)
  | 0, _, _ => none
  | Nat.succ fuel, cs, acc =>
    match parseValue fuel cs with
    | none => none
    | some (v, rest) =>
      match rest.dropWhile jsonWsChar with
      | ',' :: rest2 => parseElems fuel rest2 (acc ++ [v])
      | ']' :: rest2 => some (.arr (acc ++ [v]), rest2)
      | _ => none

end

/-- Python `json.loads` on a string: parse one value and require only
whitespace after it. -/
def jsonLoads (s : String) : Option Py :=
  match parseValue (2 * s.data.length + 2) s.data with
  | some (v, rest) => if rest.dropWhile jsonWsChar = [] then some v else none
  | none => none

/-! ### Process execution wrapper (`exec_cmc`, backend.py lines 48-85) -/

/-- The process-wide configuration read from the environment at start-up
(backend.py lines 16-19). -/
structure Config where
  contractName : String
  sdkConfPath : String
  cmcBin : String
  workDir : String

/-- The default configuration values. -/
def defaultConfig : Config :=
  { contractName := "CMNFA"
    sdkConfPath := "./testdata/sdk_config.yml"
    cmcBin := "./cmc"
    workDir := "/home/young3/chainmaker-go/tools/cmc" }

/-- What one `subprocess.run` can come back with. -/
inductive ProcOutcome where
  | completed (exitCode : Int) (stdout stderr : String)
  | timedOut
  | spawnError (msg : String)

/-- One spawn request: argument vector, working directory, timeout. -/
structure SpawnSpec where
  cmd : List String
  cwd : String
  timeoutSec : Nat

/-- The external environment: the filesystem (`os.path.exists`) and the
subprocess boundary. -/
structure World where
  fileExists : String → Bool
  run : SpawnSpec → ProcOutcome

/-- `exec_cmc`'s return value: `(False, message)` or `(True, data)`. -/
inductive ExecResult where
  | failure (msg : String)
  | success (data : Py)

/-- The argument vector `exec_cmc` builds (backend.py lines 53-62):
`--params` with the compact JSON encoding is appended only when the params
mapping is non-empty. -/
def buildCmd (cfg : Config) (method : String) (params : List (String × String))
    (sync : Bool) : List String :=
  [cfg.cmcBin, "client", "contract", "user", "invoke",
   "--contract-name=" ++ cfg.contractName,
   "--method=" ++ method,
   "--sdk-conf-path=" ++ cfg.sdkConfPath,
   "--sync-result=" ++ (if sync then "true" else "false")] ++
  (if params.isEmpty then [] else ["--params=" ++ jsonDumpsCompact params])

/-- backend.py `exec_cmc` (a `None` params argument is modelled as `[]`).
Returns the result and, when a process was spawned, its spawn spec.
Precondition checks come before any spawn; stdout and stderr are stripped;
non-zero exit prefers stderr, then stdout, then a generic exit-code
message; on exit zero stdout is parsed as JSON, with the raw (stripped)
text passed through when parsing fails. -/
def exec_cmc (cfg : Config) (w : World) (method : String)
    (params : List (String × String)) (sync : Bool) (timeoutSec : Nat) :
    ExecResult × Option SpawnSpec :=
  let cmd := buildCmd cfg method params sync
  if !(w.fileExists (pyPathJoin cfg.workDir (pyBasename cfg.cmcBin))) then
    (.failure ("找不到 CMC 可执行文件：" ++ pyPathJoin cfg.workDir cfg.cmcBin), none)
  else if !(w.fileExists (pyPathJoin cfg.workDir cfg.sdkConfPath)) then
    (.failure ("找不到 SDK 配置：" ++ pyPathJoin cfg.workDir cfg.sdkConfPath), none)
  else
    let spec : SpawnSpec := { cmd := cmd, cwd := cfg.workDir, timeoutSec := timeoutSec }
    match w.run spec with
    | .timedOut => (.failure "执行超时", some spec)
    | .spawnError e => (.failure ("执行异常：" ++ e), some spec)
    | .completed code out errOut =>
      let stdout := pyStrip out
      let stderr := pyStrip errOut
      if code ≠ 0 then
        (.failure (if stderr ≠ "" then stderr
                   else if stdout ≠ "" then stdout
                   else "cmc 退出码 " ++ toString code), some spec)
      else
        (.success (match jsonLoads stdout with
                   | some v => v
                   | none => .str stdout), some spec)

/-! ### Response normalization and endpoint handlers (backend.py 87-263) -/

/-- Python `data.get(key, default)`: `none` models the `AttributeError`
raised when the receiver is not a dict. -/
def pyGet (v : Py) (key : String) (dflt : Py) : Option Py :=
  match v with
  | .obj kvs => some ((kvs.lookup key).getD dflt)
  | _ => none

/-- `_decode_result` applied to an arbitrary value: the `isinstance` guard
returns non-strings unchanged. -/
def _decode_result_any (v : Py) : Py :=
  match v with
  | .str s => .str (_decode_result s)
  | v => v

/-- The HTTP-visible outcome of a handler: one of the two uniform JSON
envelopes produced by `ok`/`err` (backend.py lines 87-88), or an uncaught
Python exception escaping the handler (a transport-level 500). -/
inductive HttpOut where
  | okResp (data : Py)
  | errResp (msg : String)
  | crash

/-- The query endpoints' shared normalization: `err(data)` on failure,
otherwise `data.get("contract_result", {}).get("result", dflt)` run
through `_decode_result`. -/
def queryNorm (dflt : Py) (r : ExecResult) : HttpOut :=
  match r with
  | .failure m => .errResp m
  | .success data =>
    match pyGet data "contract_result" (.obj []) with
    | none => .crash
    | some cr =>
      match pyGet cr "result" dflt with
      | none => .crash
      | some res => .okResp (_decode_result_any res)

/-- The write endpoints' shared normalization (mint, transfer-from, burn,
create-or-set-category all repeat it verbatim): surface
`contract_result.message`, `contract_result.contract_event`, `tx_id` and
`tx_block_height` with their Python defaults, no decoding. -/
def writeNorm (r : ExecResult) : HttpOut :=
  match r with
  | .failure m => .errResp m
  | .success data =>
    match pyGet data "contract_result" (.obj []) with
    | none => .crash
    | some cr =>
      match pyGet cr "message" (.str ""), pyGet cr "contract_event" (.arr []),
            pyGet data "tx_id" .null, pyGet data "tx_block_height" .null with
      | some msg, some evts, some txid, some bh =>
        .okResp (.obj [("message", msg), ("events", evts), ("tx_id", txid), ("block_height", bh)])
      | _, _, _, _ => .crash

/-- A JSON request body, modelled as its string-valued fields (every field
these handlers read is accessed as a string). -/
abbrev Body := List (String × String)

/-- Python `body.get(key, dflt)`. -/
def bodyGetD (b : Body) (k d : String) : String :=
  (b.lookup k).getD d

/-- Field validation and parameter building for `owner_of`, `token_uri`
and `burn` (they validate `tokenId` identically, same message). -/
def tokenIdTranslate (b : Body) : Sum String (List (String × String)) :=
  let tokenId := pyStrip (bodyGetD b "tokenId" "")
  if tokenId = "" then .inl "tokenId 不能为空"
  else .inr [("tokenId", tokenId)]

/-- Field validation and parameter building for `balance_of`. -/
def balanceOfTranslate (b : Body) : Sum String (List (String × String)) :=
  let account := pyStrip (bodyGetD b "account" "")
  if account = "" then .inl "account 不能为空"
  else .inr [("account", account)]

/-- Field validation, metadata encoding and parameter building for `mint`
(backend.py lines 166-182): a truthy `metadata_b64` passes through,
otherwise `metadata_text` is UTF-8 encoded and base64 encoded, empty text
giving an empty string. -/
def mintTranslate (b : Body) : Sum String (List (String × String)) :=
  let toAddr := pyStrip (bodyGetD b "to" "")
  let tokenId := pyStrip (bodyGetD b "tokenId" "")
  let category := pyStrip (bodyGetD b "categoryName" "")
  let metadataText := bodyGetD b "metadata_text" ""
  let metadataB64 := bodyGetD b "metadata_b64" ""
  if toAddr = "" ∨ tokenId = "" ∨ category = "" then
    .inl "to / tokenId / categoryName 不能为空"
  else
    .inr [("to", toAddr), ("tokenId", tokenId), ("categoryName", category),
          ("metadata",
            if metadataB64 ≠ "" then metadataB64
            else if metadataText ≠ "" then b64encode (utf8Encode metadataText)
            else "")]

/-- Field validation and parameter building for `transfer_from`. -/
def transferFromTranslate (b : Body) : Sum String (List (String × String)) :=
  let fromAddr := pyStrip (bodyGetD b "from" "")
  let toAddr := pyStrip (bodyGetD b "to" "")
  let tokenId := pyStrip (bodyGetD b "tokenId" "")
  if fromAddr = "" ∨ toAddr = "" ∨ tokenId = "" then
    .inl "from / to / tokenId 不能为空"
  else
    .inr [("from", fromAddr), ("to", toAddr), ("tokenId", tokenId)]

/-- Field validation and parameter building for `create_or_set_category`:
the single `category` param is the default-format JSON encoding of the
trimmed name and URI (backend.py line 253 uses plain `json.dumps`). -/
def createOrSetCategoryTranslate (b : Body) : Sum String (List (String × String)) :=
  let name := pyStrip (bodyGetD b "categoryName" "")
  let uri := pyStrip (bodyGetD b "categoryURI" "")
  if name = "" ∨ uri = "" then .inl "categoryName / categoryURI 不能为空"
  else
    .inr [("category", jsonDumpsDefault [("categoryName", name), ("categoryURI", uri)])]

/-- Run a query endpoint: validation error short-circuits (no spawn),
otherwise invoke and normalize with the endpoint's default result. -/
def runQuery (cfg : Config) (w : World) (method : String) (dflt : Py)
    (t : Sum String (List (String × String))) : HttpOut × Option SpawnSpec :=
  match t with
  | .inl m => (.errResp m, none)
  | .inr ps =>
    match exec_cmc cfg w method ps true 60 with
    | (r, sp) => (queryNorm dflt r, sp)

/-- Run a write endpoint, analogously. -/
def runWrite (cfg : Config) (w : World) (method : String)
    (t : Sum String (List (String × String))) : HttpOut × Option SpawnSpec :=
  match t with
  | .inl m => (.errResp m, none)
  | .inr ps =>
    match exec_cmc cfg w method ps true 60 with
    | (r, sp) => (writeNorm r, sp)

/-- `GET /api/nfa/total-supply` (backend.py lines 112-119). -/
def totalSupplyHandler (cfg : Config) (w : World) : HttpOut × Option SpawnSpec :=
  match exec_cmc cfg w "TotalSupply" [] true 60 with
  | (r, sp) => (queryNorm (.str "MA==") r, sp)

/-- `POST /api/nfa/owner` (lines 121-131). -/
def ownerOfHandler (cfg : Config) (w : World) (b : Body) : HttpOut × Option SpawnSpec :=
  runQuery cfg w "OwnerOf" (.str "") (tokenIdTranslate b)

/-- `POST /api/nfa/token-uri` (lines 133-143). -/
def tokenUriHandler (cfg : Config) (w : World) (b : Body) : HttpOut × Option SpawnSpec :=
  runQuery cfg w "TokenURI" (.str "") (tokenIdTranslate b)

/-- `POST /api/nfa/balance-of` (lines 145-155). -/
def balanceOfHandler (cfg : Config) (w : World) (b : Body) : HttpOut × Option SpawnSpec :=
  runQuery cfg w "BalanceOf" (.str "MA==") (balanceOfTranslate b)

/-- `POST /api/nfa/mint` (lines 160-196). -/
def mintHandler (cfg : Config) (w : World) (b : Body) : HttpOut × Option SpawnSpec :=
  runWrite cfg w "Mint" (mintTranslate b)

/-- `POST /api/nfa/transfer-from` (lines 198-217). -/
def transferFromHandler (cfg : Config) (w : World) (b : Body) : HttpOut × Option SpawnSpec :=
  runWrite cfg w "TransferFrom" (transferFromTranslate b)

/-- `POST /api/nfa/burn` (lines 219-235). -/
def burnHandler (cfg : Config) (w : World) (b : Body) : HttpOut × Option SpawnSpec :=
  runWrite cfg w "Burn" (tokenIdTranslate b)

/-- `POST /api/nfa/create-or-set-category` (lines 237-263). -/
def createOrSetCategoryHandler (cfg : Config) (w : World) (b : Body) :
    HttpOut × Option SpawnSpec :=
  runWrite cfg w "CreateOrSetCategory" (createOrSetCategoryTranslate b)

/-! ### Concrete test environments used by closed theorems -/

/-- Every file exists; the process always exits 0 printing `hello`
(valid output that is not JSON). -/
def worldHello : World :=
  { fileExists := fun _ => true, run := fun _ => .completed 0 "hello" "" }

/-- Every file exists; the process exits 0 printing the JSON array `[0]`. -/
def worldArrZero : World :=
  { fileExists := fun _ => true, run := fun _ => .completed 0 "[0]" "" }

/-- Every file exists; the process exits 0 printing the JSON array `[1]`. -/
def worldArrOne : World :=
  { fileExists := fun _ => true, run := fun _ => .completed 0 "[1]" "" }

/-- Every file exists; the process exits 1 with stdout `boom` and a
whitespace-only stderr. -/
def worldWsStderr : World :=
  { fileExists := fun _ => true, run := fun _ => .completed 1 "boom" " " }

/-- Every file exists; the process exits 1 with empty stdout and stderr
`insufficient permission`. -/
def worldPermDenied : World :=
  { fileExists := fun _ => true, run := fun _ => .completed 1 "" "insufficient permission" }

/-- No file exists. -/
def worldNoFiles : World :=
  { fileExists := fun _ => false, run := fun _ => .timedOut }

/-- Only the binary's checked path exists. -/
def worldBinOnly : World :=
  { fileExists := fun p => p == pyPathJoin defaultConfig.workDir (pyBasename defaultConfig.cmcBin)
    run := fun _ => .timedOut }

/-! ### Substring helper lemmas -/

theorem isPrefixChars_refl (l : List Char) : isPrefixChars l l = true := by
  induction l with
  | nil => rfl
  | cons c t ih => simp [isPrefixChars, ih]

theorem isPrefixChars_append (n h e : List Char) (hp : isPrefixChars n h = true) :
    isPrefixChars n (h ++ e) = true := by
  induction n generalizing h with
  | nil => rfl
  | cons c t ih =>
    cases h with
    | nil => exact absurd hp (by simp [isPrefixChars])
    | cons d ds =>
      simp only [isPrefixChars, Bool.and_eq_true] at hp
      simp [isPrefixChars, hp.1, ih ds hp.2]

theorem hasSubChars_append_left (n h e : List Char) (hs : hasSubChars n h = true) :
    hasSubChars n (h ++ e) = true := by
  induction h with
  | nil =>
    cases n with
    | nil =>
      cases e with
      | nil => rfl
      | cons c t => simp [hasSubChars, isPrefixChars]
    | cons c t => exact absurd hs (by simp [hasSubChars, isPrefixChars])
  | cons d ds ih =>
    simp only [hasSubChars, Bool.or_eq_true] at hs
    rcases hs with hp | hrest
    · simp only [List.cons_append, hasSubChars, Bool.or_eq_true]
      exact Or.inl (isPrefixChars_append n (d :: ds) e hp)
    · simp only [List.cons_append, hasSubChars, Bool.or_eq_true]
      exact Or.inr (ih hrest)

theorem strContains_append_left (a b n : String) (hs : strContains a n = true) :
    strContains (a ++ b) n = true := by
  unfold strContains at hs ⊢
  rw [String.data_append]
  exact hasSubChars_append_left n.data a.data b.data hs

/-! ### Claims -/

/-- C3 (amended): the decoder returns the base64-decoded UTF-8 text of `s`
exactly when `s` is non-empty, drawn from the base64 alphabet plus `=`,
`\n`, `\r`, decodes under strict base64 decoding, AND the decoded bytes
are valid UTF-8; in every other case (including valid base64 whose bytes
are not UTF-8) `s` is returned unchanged. -/
theorem C3_decoder_characterization (s : String) :
    (∀ bs cs,
       s ≠ "" →
       s.data.all (fun c => (b64CharVal c).isSome || c == '=' || c == '\n' || c == '\r') = true →
       pyB64DecodeStrict s = some bs →
       utf8Decode bs = some cs →
       _decode_result s = String.mk cs) ∧
    ((s = "" ∨
      s.data.all (fun c => (b64CharVal c).isSome || c == '=' || c == '\n' || c == '\r') = false ∨
      pyB64DecodeStrict s = none ∨
      (pyB64DecodeStrict s).bind utf8Decode = none) →
       _decode_result s = s) := by
  constructor
  · intro bs cs hne hcharset hdec hutf
    have hdatane : s.data.isEmpty = false := by
      cases hs : s.data with
      | nil =>
        exact absurd (by cases s with | mk d => simp_all) hne
      | cons c t => rfl
    have hb : _is_base64 s = true := by
      simp [_is_base64, hdatane, hcharset, hdec]
    simp [_decode_result, hb, hdec, hutf]
  · intro hcase
    rcases hcase with hempty | hcharset | hdec | hbind
    · subst hempty; rfl
    · simp [_decode_result, _is_base64, hcharset]
    · simp [_decode_result, _is_base64, hdec]
    · by_cases hb : _is_base64 s = true
      · simp [_decode_result, hb, hbind]
      · simp [_decode_result, hb]

/-- C3 (counterexample to the claim as stated): `"/w=="` satisfies every
stated condition — non-empty, base64 charset, strict decode succeeds — yet
its decoded byte 0xFF is not UTF-8, so there is no "base64-decoded UTF-8
text" and the decoder returns the string unchanged. -/
theorem C3_utf8_gap :
    ("/w==" : String) ≠ "" ∧
    "/w==".data.all (fun c => (b64CharVal c).isSome || c == '=' || c == '\n' || c == '\r') = true ∧
    pyB64DecodeStrict "/w==" = some [255] ∧
    utf8Decode [255] = none ∧
    _decode_result "/w==" = "/w==" :=
  ⟨by decide, rfl, rfl, rfl, rfl⟩

/-- C3 witness: the characterization evaluated at a decodable input and at
the spec's own non-base64 example. -/
theorem C3_decoder_characterization_witness :
    _decode_result "aGVsbG8=" = "hello" ∧
    _decode_result "not-base64-!!" = "not-base64-!!" :=
  ⟨(C3_decoder_characterization "aGVsbG8=").1 [104, 101, 108, 108, 111] "hello".data
      (by decide) rfl rfl rfl,
   (C3_decoder_characterization "not-base64-!!").2 (Or.inr (Or.inl rfl))⟩

/-- C5: for a mint request passing validation, a non-empty `metadata_b64`
passes through unchanged as the `metadata` param; otherwise `metadata`
equals the base64 encoding of the UTF-8 bytes of `metadata_text` (empty
text gives the empty string, and the param is always present). -/
theorem C5_mint_metadata (b : Body)
    (hto : pyStrip (bodyGetD b "to" "") ≠ "")
    (htok : pyStrip (bodyGetD b "tokenId" "") ≠ "")
    (hcat : pyStrip (bodyGetD b "categoryName" "") ≠ "") :
    mintTranslate b = .inr
      [("to", pyStrip (bodyGetD b "to" "")),
       ("tokenId", pyStrip (bodyGetD b "tokenId" "")),
       ("categoryName", pyStrip (bodyGetD b "categoryName" "")),
       ("metadata",
         if bodyGetD b "metadata_b64" "" ≠ "" then bodyGetD b "metadata_b64" ""
         else b64encode (utf8Encode (bodyGetD b "metadata_text" "")))] := by
  by_cases hb64 : bodyGetD b "metadata_b64" "" = ""
  · by_cases ht : bodyGetD b "metadata_text" "" = ""
    · simp [mintTranslate, hto, htok, hcat, hb64, ht]
      rfl
    · simp [mintTranslate, hto, htok, hcat, hb64, ht]
  · simp [mintTranslate, hto, htok, hcat, hb64]

/-- C5 witness: `metadata_text="hello"` maps to `aGVsbG8=`; a supplied
`metadata_b64` passes through; absent metadata still yields the param. -/
theorem C5_mint_metadata_witness :
    mintTranslate [("to", "a"), ("tokenId", "1"), ("categoryName", "c"), ("metadata_text", "hello")] =
      .inr [("to", "a"), ("tokenId", "1"), ("categoryName", "c"), ("metadata", "aGVsbG8=")] ∧
    mintTranslate [("to", "a"), ("tokenId", "1"), ("categoryName", "c"), ("metadata_b64", "QkI=")] =
      .inr [("to", "a"), ("tokenId", "1"), ("categoryName", "c"), ("metadata", "QkI=")] ∧
    mintTranslate [("to", "a"), ("tokenId", "1"), ("categoryName", "c")] =
      .inr [("to", "a"), ("tokenId", "1"), ("categoryName", "c"), ("metadata", "")] :=
  ⟨C5_mint_metadata _ (by decide) (by decide) (by decide),
   C5_mint_metadata _ (by decide) (by decide) (by decide),
   C5_mint_metadata _ (by decide) (by decide) (by decide)⟩

/-- C1 (amended): when a successful invocation's stdout does not parse as
JSON, the execution wrapper raises no failure and returns the
whitespace-stripped text unchanged as a success payload; but every query
endpoint that reads the result then hits an uncaught `AttributeError`
(calling `.get` on a string), so the HTTP caller receives a transport-level
failure, not the opaque string. -/
theorem C1_unparsable_passthrough (cfg : Config) (w : World) (out errOut : String)
    (hbin : w.fileExists (pyPathJoin cfg.workDir (pyBasename cfg.cmcBin)) = true)
    (hconf : w.fileExists (pyPathJoin cfg.workDir cfg.sdkConfPath) = true)
    (hrun : ∀ sp, w.run sp = .completed 0 out errOut)
    (hparse : jsonLoads (pyStrip out) = none) :
    (∀ method params sync t,
       exec_cmc cfg w method params sync t =
         (.success (.str (pyStrip out)),
          some { cmd := buildCmd cfg method params sync, cwd := cfg.workDir, timeoutSec := t })) ∧
    (totalSupplyHandler cfg w).1 = .crash ∧
    (∀ b, pyStrip (bodyGetD b "tokenId" "") ≠ "" →
       (ownerOfHandler cfg w b).1 = .crash ∧ (tokenUriHandler cfg w b).1 = .crash) ∧
    (∀ b, pyStrip (bodyGetD b "account" "") ≠ "" →
       (balanceOfHandler cfg w b).1 = .crash) := by
  have hexec : ∀ method params sync t,
      exec_cmc cfg w method params sync t =
        (.success (.str (pyStrip out)),
         some { cmd := buildCmd cfg method params sync, cwd := cfg.workDir, timeoutSec := t }) := by
    intro method params sync t
    simp [exec_cmc, hbin, hconf, hrun, hparse]
  refine ⟨hexec, ?_, ?_, ?_⟩
  · simp [totalSupplyHandler, hexec, queryNorm, pyGet]
  · intro b hb
    constructor
    · simp [ownerOfHandler, runQuery, tokenIdTranslate, hb, hexec, queryNorm, pyGet]
    · simp [tokenUriHandler, runQuery, tokenIdTranslate, hb, hexec, queryNorm, pyGet]
  · intro b hb
    simp [balanceOfHandler, runQuery, balanceOfTranslate, hb, hexec, queryNorm, pyGet]

/-- C1 (counterexample to the claim as stated): with stdout `hello` (not
JSON), the wrapper does report success with the opaque string, but the
total-supply endpoint — an endpoint that reads the result — crashes, so
the caller does not receive the text as a success payload. -/
theorem C1_handler_crash_on_unparsable :
    jsonLoads "hello" = none ∧
    (exec_cmc defaultConfig worldHello "TotalSupply" [] true 60).1 = .success (.str "hello") ∧
    (totalSupplyHandler defaultConfig worldHello).1 = .crash :=
  ⟨rfl, rfl, rfl⟩

/-- C1 witness: the amended statement evaluated in a concrete world whose
process prints `hello`. -/
theorem C1_unparsable_passthrough_witness :
    exec_cmc defaultConfig worldHello "OwnerOf" [("tokenId", "7")] true 60 =
      (.success (.str "hello"),
       some { cmd := buildCmd defaultConfig "OwnerOf" [("tokenId", "7")] true,
              cwd := defaultConfig.workDir, timeoutSec := 60 }) ∧
    (ownerOfHandler defaultConfig worldHello [("tokenId", "7")]).1 = .crash :=
  ⟨(C1_unparsable_passthrough defaultConfig worldHello "hello" "" rfl rfl
      (fun _ => rfl) rfl).1 "OwnerOf" [("tokenId", "7")] true 60,
   ((C1_unparsable_passthrough defaultConfig worldHello "hello" "" rfl rfl
      (fun _ => rfl) rfl).2.2.1 [("tokenId", "7")] (by decide)).1⟩

/-- C2 (amended): every invocation failure is returned in the uniform
`success:false` envelope, and a successful invocation whose payload is a
JSON object with an object-shaped (or absent) `contract_result` is
returned in the uniform `success:true` envelope; but a success payload
that is not a JSON object — unparsable output carried as a string, or
non-object JSON — makes the handler raise an uncaught `AttributeError`
that escapes as a transport-level failure. -/
theorem C2_uniform_envelopes :
    (∀ dflt m, queryNorm dflt (.failure m) = .errResp m) ∧
    (∀ m, writeNorm (.failure m) = .errResp m) ∧
    (∀ dflt kvs crs, (kvs.lookup "contract_result").getD (.obj []) = .obj crs →
       queryNorm dflt (.success (.obj kvs)) =
         .okResp (_decode_result_any ((crs.lookup "result").getD dflt))) ∧
    (∀ kvs crs, (kvs.lookup "contract_result").getD (.obj []) = .obj crs →
       ∃ v, writeNorm (.success (.obj kvs)) = .okResp v) ∧
    (∀ dflt s, queryNorm dflt (.success (.str s)) = .crash) ∧
    (∀ s, writeNorm (.success (.str s)) = .crash) := by
  refine ⟨fun dflt m => rfl, fun m => rfl, ?_, ?_, fun dflt s => rfl, fun s => rfl⟩
  · intro dflt kvs crs hcr
    simp [queryNorm, pyGet, hcr]
  · intro kvs crs hcr
    exact ⟨.obj [("message", (crs.lookup "message").getD (.str "")),
                 ("events", (crs.lookup "contract_event").getD (.arr [])),
                 ("tx_id", (kvs.lookup "tx_id").getD .null),
                 ("block_height", (kvs.lookup "tx_block_height").getD .null)],
           by simp [writeNorm, pyGet, hcr]⟩

/-- C2 (counterexample to the claim as stated): valid JSON that is not an
object (`[0]`) makes the owner-of handler crash, so the HTTP response is
not one of the two uniform JSON shapes. -/
theorem C2_crash_on_nonobject :
    jsonLoads "[0]" = some (.arr [.intVal 0]) ∧
    (ownerOfHandler defaultConfig worldArrZero [("tokenId", "1")]).1 = .crash :=
  ⟨rfl, rfl⟩

/-- C2 witness: the uniform envelopes at concrete outcomes. -/
theorem C2_uniform_envelopes_witness :
    queryNorm (.str "MA==") (.failure "执行超时") = .errResp "执行超时" ∧
    writeNorm (.failure "x") = .errResp "x" ∧
    queryNorm (.str "MA==") (.success (.obj [])) = .okResp (.str "0") ∧
    (∃ v, writeNorm (.success (.obj [])) = .okResp v) :=
  ⟨C2_uniform_envelopes.1 (.str "MA==") "执行超时",
   C2_uniform_envelopes.2.1 "x",
   C2_uniform_envelopes.2.2.1 (.str "MA==") [] [] rfl,
   C2_uniform_envelopes.2.2.2.1 [] [] rfl⟩

/-- C4: any missing or blank-after-trim required field makes the endpoint
answer `success:false` with the fixed validation message (which names the
missing field), without any process being spawned (the second component
`none` records that no spawn occurred). -/
theorem C4_required_field_validation (cfg : Config) (w : World) (b : Body) :
    (pyStrip (bodyGetD b "tokenId" "") = "" →
       ownerOfHandler cfg w b = (.errResp "tokenId 不能为空", none) ∧
       tokenUriHandler cfg w b = (.errResp "tokenId 不能为空", none) ∧
       burnHandler cfg w b = (.errResp "tokenId 不能为空", none) ∧
       strContains "tokenId 不能为空" "tokenId" = true) ∧
    (pyStrip (bodyGetD b "account" "") = "" →
       balanceOfHandler cfg w b = (.errResp "account 不能为空", none) ∧
       strContains "account 不能为空" "account" = true) ∧
    (∀ f, (f = "to" ∨ f = "tokenId" ∨ f = "categoryName") →
       pyStrip (bodyGetD b f "") = "" →
       mintHandler cfg w b = (.errResp "to / tokenId / categoryName 不能为空", none) ∧
       strContains "to / tokenId / categoryName 不能为空" f = true) ∧
    (∀ f, (f = "from" ∨ f = "to" ∨ f = "tokenId") →
       pyStrip (bodyGetD b f "") = "" →
       transferFromHandler cfg w b = (.errResp "from / to / tokenId 不能为空", none) ∧
       strContains "from / to / tokenId 不能为空" f = true) ∧
    (∀ f, (f = "categoryName" ∨ f = "categoryURI") →
       pyStrip (bodyGetD b f "") = "" →
       createOrSetCategoryHandler cfg w b = (.errResp "categoryName / categoryURI 不能为空", none) ∧
       strContains "categoryName / categoryURI 不能为空" f = true) := by
  refine ⟨?_, ?_, ?_, ?_, ?_⟩
  · intro h
    refine ⟨?_, ?_, ?_, by decide⟩
    · simp [ownerOfHandler, runQuery, tokenIdTranslate, h]
    · simp [tokenUriHandler, runQuery, tokenIdTranslate, h]
    · simp [burnHandler, runWrite, tokenIdTranslate, h]
  · intro h
    exact ⟨by simp [balanceOfHandler, runQuery, balanceOfTranslate, h], by decide⟩
  · intro f hf h
    rcases hf with hf | hf | hf <;> subst hf
    · exact ⟨by simp [mintHandler, runWrite, mintTranslate, h], by decide⟩
    · exact ⟨by simp [mintHandler, runWrite, mintTranslate, h], by decide⟩
    · exact ⟨by simp [mintHandler, runWrite, mintTranslate, h], by decide⟩
  · intro f hf h
    rcases hf with hf | hf | hf <;> subst hf
    · exact ⟨by simp [transferFromHandler, runWrite, transferFromTranslate, h], by decide⟩
    · exact ⟨by simp [transferFromHandler, runWrite, transferFromTranslate, h], by decide⟩
    · exact ⟨by simp [transferFromHandler, runWrite, transferFromTranslate, h], by decide⟩
  · intro f hf h
    rcases hf with hf | hf <;> subst hf
    · exact ⟨by simp [createOrSetCategoryHandler, runWrite, createOrSetCategoryTranslate, h], by decide⟩
    · exact ⟨by simp [createOrSetCategoryHandler, runWrite, createOrSetCategoryTranslate, h], by decide⟩

/-- C4 witness: an empty body fails validation on every endpoint with a
required field, with no spawn. -/
theorem C4_required_field_validation_witness :
    ownerOfHandler defaultConfig worldHello [] = (.errResp "tokenId 不能为空", none) ∧
    mintHandler defaultConfig worldHello [] = (.errResp "to / tokenId / categoryName 不能为空", none) ∧
    transferFromHandler defaultConfig worldHello [] = (.errResp "from / to / tokenId 不能为空", none) ∧
    createOrSetCategoryHandler defaultConfig worldHello [] = (.errResp "categoryName / categoryURI 不能为空", none) :=
  ⟨((C4_required_field_validation defaultConfig worldHello []).1 rfl).1,
   ((C4_required_field_validation defaultConfig worldHello []).2.2.1 "to" (Or.inl rfl) rfl).1,
   ((C4_required_field_validation defaultConfig worldHello []).2.2.2.1 "from" (Or.inl rfl) rfl).1,
   ((C4_required_field_validation defaultConfig worldHello []).2.2.2.2 "categoryName" (Or.inl rfl) rfl).1⟩

/-- C6 (amended): on non-zero exit the wrapper strips surrounding
whitespace from both streams and fails with the stripped standard-error
text; if that is empty (stderr blank), the stripped standard-output text;
if both are blank, a generic message carrying the exit code — in that
preference order. -/
theorem C6_failure_message_order (cfg : Config) (w : World) (method : String)
    (params : List (String × String)) (sync : Bool) (t : Nat)
    (code : Int) (out errOut : String)
    (hbin : w.fileExists (pyPathJoin cfg.workDir (pyBasename cfg.cmcBin)) = true)
    (hconf : w.fileExists (pyPathJoin cfg.workDir cfg.sdkConfPath) = true)
    (hrun : ∀ sp, w.run sp = .completed code out errOut)
    (hcode : code ≠ 0) :
    (pyStrip errOut ≠ "" →
       (exec_cmc cfg w method params sync t).1 = .failure (pyStrip errOut)) ∧
    (pyStrip errOut = "" → pyStrip out ≠ "" →
       (exec_cmc cfg w method params sync t).1 = .failure (pyStrip out)) ∧
    (pyStrip errOut = "" → pyStrip out = "" →
       (exec_cmc cfg w method params sync t).1 = .failure ("cmc 退出码 " ++ toString code)) := by
  refine ⟨?_, ?_, ?_⟩
  · intro he
    simp [exec_cmc, hbin, hconf, hrun, hcode, he]
  · intro he ho
    simp [exec_cmc, hbin, hconf, hrun, hcode, he, ho]
  · intro he ho
    simp [exec_cmc, hbin, hconf, hrun, hcode, he, ho]

/-- C6 (counterexample to the claim as stated): with exit code 1, stderr
`" "` (non-empty) and stdout `boom`, the claim requires the failure message
to be the standard-error text, but the code strips it to empty and falls
back to stdout, producing `boom`. -/
theorem C6_whitespace_stderr_fallback :
    (exec_cmc defaultConfig worldWsStderr "TotalSupply" [] true 60).1 = .failure "boom" ∧
    (" " : String) ≠ "" ∧ ("boom" : String) ≠ " " :=
  ⟨rfl, by decide, by decide⟩

/-- C6 witness: the spec's own example — exit 1, stderr
`insufficient permission` — yields exactly that failure message. -/
theorem C6_failure_message_order_witness :
    (exec_cmc defaultConfig worldPermDenied "TotalSupply" [] true 60).1 =
      .failure "insufficient permission" :=
  (C6_failure_message_order defaultConfig worldPermDenied "TotalSupply" [] true 60 1
      "" "insufficient permission" rfl rfl (fun _ => rfl) (by decide)).1 (by decide)

/-- C7: if the binary is absent from its checked location (the basename of
the configured binary path joined to the working directory, which for the
default `./cmc` is its configured location) the wrapper fails fast with a
message naming the CMC executable; if the binary is present but the SDK
configuration file is absent from its configured location, it fails fast
naming the SDK configuration; in both cases no process is spawned (second
component `none`). -/
theorem C7_missing_artifact_fails_fast (cfg : Config) (w : World) (method : String)
    (params : List (String × String)) (sync : Bool) (t : Nat) :
    (w.fileExists (pyPathJoin cfg.workDir (pyBasename cfg.cmcBin)) = false →
       exec_cmc cfg w method params sync t =
         (.failure ("找不到 CMC 可执行文件：" ++ pyPathJoin cfg.workDir cfg.cmcBin), none) ∧
       strContains ("找不到 CMC 可执行文件：" ++ pyPathJoin cfg.workDir cfg.cmcBin)
         "CMC 可执行文件" = true) ∧
    (w.fileExists (pyPathJoin cfg.workDir (pyBasename cfg.cmcBin)) = true →
     w.fileExists (pyPathJoin cfg.workDir cfg.sdkConfPath) = false →
       exec_cmc cfg w method params sync t =
         (.failure ("找不到 SDK 配置：" ++ pyPathJoin cfg.workDir cfg.sdkConfPath), none) ∧
       strContains ("找不到 SDK 配置：" ++ pyPathJoin cfg.workDir cfg.sdkConfPath)
         "SDK 配置" = true) := by
  constructor
  · intro h
    refine ⟨by simp [exec_cmc, h], ?_⟩
    exact strContains_append_left "找不到 CMC 可执行文件：" _ _ (by decide)
  · intro hb h
    refine ⟨by simp [exec_cmc, hb, h], ?_⟩
    exact strContains_append_left "找不到 SDK 配置：" _ _ (by decide)

/-- C7 witness: with no files present the binary check fails first; with
only the binary's checked path present the SDK configuration check fails;
neither spawns a process. -/
theorem C7_missing_artifact_fails_fast_witness :
    exec_cmc defaultConfig worldNoFiles "TotalSupply" [] true 60 =
      (.failure ("找不到 CMC 可执行文件：" ++
        pyPathJoin defaultConfig.workDir defaultConfig.cmcBin), none) ∧
    exec_cmc defaultConfig worldBinOnly "TotalSupply" [] true 60 =
      (.failure ("找不到 SDK 配置：" ++
        pyPathJoin defaultConfig.workDir defaultConfig.sdkConfPath), none) :=
  ⟨((C7_missing_artifact_fails_fast defaultConfig worldNoFiles "TotalSupply" [] true 60).1 rfl).1,
   ((C7_missing_artifact_fails_fast defaultConfig worldBinOnly "TotalSupply" [] true 60).2 rfl rfl).1⟩

/-- C8: whenever the preconditions pass, the spawned command line is
exactly `<binary> client contract user invoke --contract-name=<name>
--method=<method> --sdk-conf-path=<path> --sync-result=<true|false>`, with
`--params=<compact JSON>` appended iff the params mapping is non-empty,
run in the configured working directory with the default 60-unit timeout
(the timeout every endpoint passes). -/
theorem C8_spawned_command_line (cfg : Config) (w : World) (method : String)
    (params : List (String × String)) (sync : Bool)
    (hbin : w.fileExists (pyPathJoin cfg.workDir (pyBasename cfg.cmcBin)) = true)
    (hconf : w.fileExists (pyPathJoin cfg.workDir cfg.sdkConfPath) = true) :
    (exec_cmc cfg w method params sync 60).2 =
      some { cmd := [cfg.cmcBin, "client", "contract", "user", "invoke",
                     "--contract-name=" ++ cfg.contractName,
                     "--method=" ++ method,
                     "--sdk-conf-path=" ++ cfg.sdkConfPath,
                     "--sync-result=" ++ (if sync then "true" else "false")] ++
                    (if params = [] then []
                     else ["--params=" ++ jsonDumpsCompact params]),
             cwd := cfg.workDir, timeoutSec := 60 } := by
  have hlist : (if params.isEmpty then ([] : List String)
                else ["--params=" ++ jsonDumpsCompact params]) =
               (if params = [] then [] else ["--params=" ++ jsonDumpsCompact params]) := by
    cases params <;> simp
  simp only [exec_cmc, buildCmd, hbin, hconf, Bool.not_true, Bool.false_eq_true,
    if_false, hlist]
  cases hr : w.run _ with
  | completed code out errOut =>
    rw [apply_ite Prod.snd]
    simp
  | timedOut => rfl
  | spawnError e => rfl

/-- C8 witness: the exact argument vectors for a parameterized call and a
parameterless call under the default configuration. -/
theorem C8_spawned_command_line_witness :
    (exec_cmc defaultConfig worldHello "Mint" [("k", "v")] true 60).2 =
      some { cmd := ["./cmc", "client", "contract", "user", "invoke",
                     "--contract-name=CMNFA", "--method=Mint",
                     "--sdk-conf-path=./testdata/sdk_config.yml", "--sync-result=true",
                     "--params=\x7b\"k\":\"v\"\x7d"],
             cwd := "/home/young3/chainmaker-go/tools/cmc", timeoutSec := 60 } ∧
    (exec_cmc defaultConfig worldHello "TotalSupply" [] true 60).2 =
      some { cmd := ["./cmc", "client", "contract", "user", "invoke",
                     "--contract-name=CMNFA", "--method=TotalSupply",
                     "--sdk-conf-path=./testdata/sdk_config.yml", "--sync-result=true"],
             cwd := "/home/young3/chainmaker-go/tools/cmc", timeoutSec := 60 } :=
  ⟨C8_spawned_command_line defaultConfig worldHello "Mint" [("k", "v")] true rfl rfl,
   C8_spawned_command_line defaultConfig worldHello "TotalSupply" [] true rfl rfl⟩

/-- C9 (amended): for a write operation whose invocation succeeds with a
parsed JSON object whose `contract_result` entry (defaulting to an empty
object) is itself an object, the response data carries the unmodified
message, the event sequence in returned order, the transaction id and the
block height, none of them base64-decoded; and each of the four write
endpoints normalizes through exactly this path. -/
theorem C9_write_response_fields :
    (∀ kvs crs, (kvs.lookup "contract_result").getD (.obj []) = .obj crs →
       writeNorm (.success (.obj kvs)) =
         .okResp (.obj [("message", (crs.lookup "message").getD (.str "")),
                        ("events", (crs.lookup "contract_event").getD (.arr [])),
                        ("tx_id", (kvs.lookup "tx_id").getD .null),
                        ("block_height", (kvs.lookup "tx_block_height").getD .null)])) ∧
    (∀ cfg w b ps, mintTranslate b = .inr ps →
       (mintHandler cfg w b).1 = writeNorm (exec_cmc cfg w "Mint" ps true 60).1) ∧
    (∀ cfg w b ps, transferFromTranslate b = .inr ps →
       (transferFromHandler cfg w b).1 =
         writeNorm (exec_cmc cfg w "TransferFrom" ps true 60).1) ∧
    (∀ cfg w b ps, tokenIdTranslate b = .inr ps →
       (burnHandler cfg w b).1 = writeNorm (exec_cmc cfg w "Burn" ps true 60).1) ∧
    (∀ cfg w b ps, createOrSetCategoryTranslate b = .inr ps →
       (createOrSetCategoryHandler cfg w b).1 =
         writeNorm (exec_cmc cfg w "CreateOrSetCategory" ps true 60).1) := by
  refine ⟨?_, ?_, ?_, ?_, ?_⟩
  · intro kvs crs hcr
    simp [writeNorm, pyGet, hcr]
  · intro cfg w b ps hps
    simp [mintHandler, runWrite, hps]
  · intro cfg w b ps hps
    simp [transferFromHandler, runWrite, hps]
  · intro cfg w b ps hps
    simp [burnHandler, runWrite, hps]
  · intro cfg w b ps hps
    simp [createOrSetCategoryHandler, runWrite, hps]

/-- C9 (counterexample to the claim as stated): `[1]` is a parsed JSON
body, the invocation succeeds, yet the burn endpoint crashes instead of
returning any response data. -/
theorem C9_crash_on_json_array :
    jsonLoads "[1]" = some (.arr [.intVal 1]) ∧
    (burnHandler defaultConfig worldArrOne [("tokenId", "1")]).1 = .crash :=
  ⟨rfl, rfl⟩

/-- C9 witness: a base64-looking message (`MA==`) is surfaced untouched
together with events, tx id and block height. -/
theorem C9_write_response_fields_witness :
    writeNorm (.success (.obj
        [("contract_result", .obj [("message", .str "MA=="),
                                   ("contract_event", .arr [.str "e1", .str "e2"])]),
         ("tx_id", .str "t"), ("tx_block_height", .intVal 5)])) =
      .okResp (.obj [("message", .str "MA=="),
                     ("events", .arr [.str "e1", .str "e2"]),
                     ("tx_id", .str "t"),
                     ("block_height", .intVal 5)]) :=
  C9_write_response_fields.1
    [("contract_result", .obj [("message", .str "MA=="),
                               ("contract_event", .arr [.str "e1", .str "e2"])]),
     ("tx_id", .str "t"), ("tx_block_height", .intVal 5)]
    [("message", .str "MA=="), ("contract_event", .arr [.str "e1", .str "e2"])]
    rfl

/-- C10 (amended): for every operation whose validation passes, the values
placed into the params mapping are the whitespace-trimmed forms of the
submitted fields — except create-or-set-category, whose single `category`
param is the default-format JSON encoding of the object holding the
trimmed `categoryName` and `categoryURI` (and mint's extra `metadata`
param, which is encoded per C5). -/
theorem C10_trimmed_params (b : Body) :
    (pyStrip (bodyGetD b "tokenId" "") ≠ "" →
       tokenIdTranslate b = .inr [("tokenId", pyStrip (bodyGetD b "tokenId" ""))]) ∧
    (pyStrip (bodyGetD b "account" "") ≠ "" →
       balanceOfTranslate b = .inr [("account", pyStrip (bodyGetD b "account" ""))]) ∧
    (pyStrip (bodyGetD b "from" "") ≠ "" → pyStrip (bodyGetD b "to" "") ≠ "" →
     pyStrip (bodyGetD b "tokenId" "") ≠ "" →
       transferFromTranslate b = .inr
         [("from", pyStrip (bodyGetD b "from" "")),
          ("to", pyStrip (bodyGetD b "to" "")),
          ("tokenId", pyStrip (bodyGetD b "tokenId" ""))]) ∧
    (pyStrip (bodyGetD b "to" "") ≠ "" → pyStrip (bodyGetD b "tokenId" "") ≠ "" →
     pyStrip (bodyGetD b "categoryName" "") ≠ "" →
       ∃ meta, mintTranslate b = .inr
         [("to", pyStrip (bodyGetD b "to" "")),
          ("tokenId", pyStrip (bodyGetD b "tokenId" "")),
          ("categoryName", pyStrip (bodyGetD b "categoryName" "")),
          ("metadata", meta)]) ∧
    (pyStrip (bodyGetD b "categoryName" "") ≠ "" →
     pyStrip (bodyGetD b "categoryURI" "") ≠ "" →
       createOrSetCategoryTranslate b = .inr
         [("category", jsonDumpsDefault
             [("categoryName", pyStrip (bodyGetD b "categoryName" "")),
              ("categoryURI", pyStrip (bodyGetD b "categoryURI" ""))])]) := by
  refine ⟨?_, ?_, ?_, ?_, ?_⟩
  · intro h
    simp [tokenIdTranslate, h]
  · intro h
    simp [balanceOfTranslate, h]
  · intro hf ht hk
    simp [transferFromTranslate, hf, ht, hk]
  · intro ht hk hc
    exact ⟨(if bodyGetD b "metadata_b64" "" = "" then
              (if bodyGetD b "metadata_text" "" = "" then ""
               else b64encode (utf8Encode (bodyGetD b "metadata_text" "")))
            else bodyGetD b "metadata_b64" ""),
           by simp [mintTranslate, ht, hk, hc]⟩
  · intro hn hu
    simp [createOrSetCategoryTranslate, hn, hu]

/-- C10 (counterexample to the claim as stated): for
create-or-set-category with `categoryName = " demo "`, what is placed in
the params mapping is a JSON document, not the trimmed field `demo` (nor
the original), so the claim's "values are the whitespace-trimmed forms of
the submitted fields" fails for this operation. -/
theorem C10_category_param_is_json :
    createOrSetCategoryTranslate [("categoryName", " demo "), ("categoryURI", "u")] =
      .inr [("category", "\x7b\"categoryName\": \"demo\", \"categoryURI\": \"u\"\x7d")] ∧
    pyStrip " demo " = "demo" ∧
    ("\x7b\"categoryName\": \"demo\", \"categoryURI\": \"u\"\x7d" : String) ≠ "demo" ∧
    ("\x7b\"categoryName\": \"demo\", \"categoryURI\": \"u\"\x7d" : String) ≠ "u" :=
  ⟨rfl, rfl, by decide, by decide⟩

/-- C10 witness: padded fields are trimmed in the params of owner-of,
transfer-from and create-or-set-category. -/
theorem C10_trimmed_params_witness :
    tokenIdTranslate [("tokenId", " 1 ")] = .inr [("tokenId", "1")] ∧
    transferFromTranslate [("from", " f "), ("to", " t "), ("tokenId", " 1 ")] =
      .inr [("from", "f"), ("to", "t"), ("tokenId", "1")] ∧
    createOrSetCategoryTranslate [("categoryName", " c "), ("categoryURI", " u ")] =
      .inr [("category", "\x7b\"categoryName\": \"c\", \"categoryURI\": \"u\"\x7d")] :=
  ⟨(C10_trimmed_params [("tokenId", " 1 ")]).1 (by decide),
   (C10_trimmed_params [("from", " f "), ("to", " t "), ("tokenId", " 1 ")]).2.2.1
     (by decide) (by decide) (by decide),
   (C10_trimmed_params [("categoryName", " c "), ("categoryURI", " u ")]).2.2.2.2
     (by decide) (by decide)⟩

end CMNFA
